import Mathlib

/-!
# Store Locator Service — verification of the geospatial search core

A shallow embedding, in Lean 4, of the core of the StoreLocatorService
repository: the GeoMath helpers (`distance_calculator.py`), the geocoding
cache wrapper (`geocoding_service.py`), the CSV bulk-import pipeline
(`csv_import.py`), the search endpoint (`search_stores` in `main.py`) and the
request schemas (`schemas.py`).

Modelling conventions:
* Python floats are modelled by exact real numbers (`ℝ`) in the GeoMath
  section, and by exact rationals (`ℚ`) in the executable pipeline models.
* The floating-point numeric kernels (`calculate_distance`,
  `calculate_bounding_box`) are passed to the search pipeline as parameters
  of its environment, so the pipeline model stays executable; the properties
  proved about the pipeline hold for every instantiation of those kernels.
* Fallible Python code is modelled with `Option`/`Except`; a raised
  exception carries the exception message paired with the session state the
  handler observes: for a plain Python `raise` that is the state as mutated
  up to the raise point, while an error raised by `Session.flush` inside
  `begin_nested` reaches the handler only after SQLAlchemy has rolled the
  savepoint back and restored the session snapshot (SQLAlchemy 1.4+
  semantics, required by the `sqlalchemy.orm.declarative_base` import in
  `models.py`).
* Redis is modelled per key namespace: the `geocoding:` namespace as an
  association list keyed by the input string, the `search:` namespace as an
  association list keyed by the (injectively serialized) request.
-/

/-! ## GeoMath (`distance_calculator.py`)

`calculate_bounding_box` and `calculate_distance` over exact reals.
`math.radians` is degree-to-radian conversion.  `geopy`'s
`geodesic(point1, point2).miles` is modelled, following the function's own
docstring ("Calculates the Haversine distance between two sets of
coordinates in miles"), as the spherical haversine great-circle distance
with the earth radius constant used in the same source file. -/

noncomputable def radians (x : ℝ) : ℝ := x * Real.pi / 180

noncomputable def EARTH_RADIUS_MILES : ℝ := 3959.0

structure BoundingBox where
  min_lat : ℝ
  max_lat : ℝ
  min_lon : ℝ
  max_lon : ℝ

/-- `calculate_bounding_box(latitude, longitude, radius_miles)` from
`distance_calculator.py`: latitude delta of `radius/69` degrees; longitude
delta of `radius/(69·cos lat)` degrees, with a pole fallback when
`|cos lat| < 1e-6`; latitude bounds clamped to `[-90, 90]` after
computation; longitude bounds not wrapped or clamped. -/
noncomputable def calculate_bounding_box (latitude longitude radius_miles : ℝ) :
    BoundingBox :=
  let lat_delta := radius_miles / 69
  let cos_lat := Real.cos (radians latitude)
  let lon_delta :=
    if |cos_lat| < 1e-6 then
      radius_miles / EARTH_RADIUS_MILES * 360 / (2 * Real.pi)
    else
      radius_miles / (69 * cos_lat)
  { min_lat := max (-90) (latitude - lat_delta)
    max_lat := min 90 (latitude + lat_delta)
    min_lon := longitude - lon_delta
    max_lon := longitude + lon_delta }

/-- `calculate_distance(lat1, lon1, lat2, lon2)` from
`distance_calculator.py`: great-circle (haversine) distance in miles. -/
noncomputable def calculate_distance (lat1 lon1 lat2 lon2 : ℝ) : ℝ :=
  let p1 := radians lat1
  let p2 := radians lat2
  let q1 := radians lon1
  let q2 := radians lon2
  let a := Real.sin ((p2 - p1) / 2) ^ 2 +
    Real.cos p1 * Real.cos p2 * Real.sin ((q2 - q1) / 2) ^ 2
  2 * EARTH_RADIUS_MILES * Real.arcsin (Real.sqrt a)

/-! ## Python primitives used by the pipeline models

Small executable models of the Python builtins the source relies on:
`int(str)`, `float(str)` (decimal forms with optional exponent; the exotic
literals `inf`/`nan` and embedded underscores are outside the model),
dictionary access on CSV rows, and truthiness of optional strings. -/

/-- Python `str` whitespace (`str.strip()` with no argument). -/
def isSpaceChar (c : Char) : Bool :=
  c = ' ' || c = '\t' || c = '\n' || c = '\x0d' || c = '\x0b' || c = '\x0c'

/-- Python `s.strip()`: drop leading and trailing whitespace.  (Implemented
on the character list so that it reduces inside the kernel; `String.trim`
is observationally identical on the inputs in scope.) -/
def pyStrip (s : String) : String :=
  String.mk (((s.data.dropWhile isSpaceChar).reverse.dropWhile isSpaceChar).reverse)

def pyLowerChar (c : Char) : Char :=
  if 'A' ≤ c ∧ c ≤ 'Z' then Char.ofNat (c.toNat + 32) else c

def pyUpperChar (c : Char) : Char :=
  if 'a' ≤ c ∧ c ≤ 'z' then Char.ofNat (c.toNat - 32) else c

/-- Python `s.lower()` (ASCII, which covers every string the source lowers). -/
def pyLower (s : String) : String := String.mk (s.data.map pyLowerChar)

/-- Python `s.upper()` (ASCII). -/
def pyUpper (s : String) : String := String.mk (s.data.map pyUpperChar)

/-- Python `s.split(sep)` for a one-character separator: empty segments are
kept, and the empty string yields `[""]`. -/
def splitChar (sep : Char) : List Char → List (List Char)
  | [] => [[]]
  | c :: rest =>
    let r := splitChar sep rest
    if c = sep then [] :: r
    else
      match r with
      | h :: t => (c :: h) :: t
      | [] => [[c]]

def pySplitOn (sep : Char) (s : String) : List String :=
  (splitChar sep s.data).map String.mk

/-- Python `sep.join(parts)`. -/
def joinWith (sep : String) : List String → String
  | [] => ""
  | [x] => x
  | x :: rest => x ++ sep ++ joinWith sep rest

def digitsToNat (s : List Char) : Nat :=
  s.foldl (fun a c => a * 10 + (c.toNat - 48)) 0

def parseDigits (s : List Char) : Option Nat :=
  if s ≠ [] ∧ s.all Char.isDigit then some (digitsToNat s) else none

/-- Python `int(s)`: optional surrounding whitespace, optional sign,
decimal digits. -/
def pyInt (s : String) : Option Int :=
  match (pyStrip s).data with
  | '+' :: rest => (parseDigits rest).map Int.ofNat
  | '-' :: rest => (parseDigits rest).map fun n => -(n : Int)
  | t => (parseDigits t).map Int.ofNat

/-- Unsigned decimal mantissa: `digits`, `digits.digits`, `digits.` or
`.digits` (at least one digit overall). -/
def parseMantissa (t : List Char) : Option ℚ :=
  match splitChar '.' t with
  | [ip] => (parseDigits ip).map fun n => (n : ℚ)
  | [ip, fp] =>
    if (ip.all Char.isDigit ∧ fp.all Char.isDigit) ∧ (ip ≠ [] ∨ fp ≠ []) then
      some ((digitsToNat (ip ++ fp) : ℚ) / (10 : ℚ) ^ fp.length)
    else none
  | _ => none

def parseSignedMantissa (t : List Char) : Option ℚ :=
  match t with
  | '+' :: rest => parseMantissa rest
  | '-' :: rest => (parseMantissa rest).map Neg.neg
  | _ => parseMantissa t

/-- Python `float(s)` restricted to finite decimal literals with an optional
scientific exponent. -/
def pyFloat (s : String) : Option ℚ :=
  match splitChar 'e' (pyLower (pyStrip s)).data with
  | [m] => parseSignedMantissa m
  | [m, ex] =>
    match parseSignedMantissa m, pyInt (String.mk ex) with
    | some q, some e =>
      some (if 0 ≤ e then q * (10 : ℚ) ^ e.toNat else q / (10 : ℚ) ^ (-e).toNat)
    | _, _ => none
  | _ => none

/-- A CSV row as produced by `csv.DictReader`: an association list from
column name to cell value; `(k, none)` models a key whose value is Python
`None` (`restval` for a short row), while an absent key models a column that
is not in the header at all. -/
abbrev Row := List (String × Option String)

def rowLookup (row : Row) (k : String) : Option (Option String) :=
  (row.find? fun p => p.1 = k).map Prod.snd

/-- Python `row.get(k)`: `None` both when the key is absent and when the
stored value is `None`. -/
def pyGet (row : Row) (k : String) : Option String :=
  (rowLookup row k).bind id

/-- Python `row.get(k, d)`: the stored value (possibly `None`) when the key
is present, `d` when the key is absent. -/
def pyGetD (row : Row) (k d : String) : Option String :=
  match rowLookup row k with
  | none => some d
  | some v => v

/-- Python `k in row` (dictionary key membership). -/
def rowHasKey (row : Row) (k : String) : Bool :=
  (rowLookup row k).isSome

/-- Truthiness of an optional string: `None` and `""` are falsy. -/
def truthy (v : Option String) : Bool :=
  match v with
  | some s => s ≠ ""
  | none => false

/-! ## Data model (`models.py`) -/

inductive StoreType where
  | flagship | regular | outlet | express
deriving DecidableEq, Repr

/-- `StoreType(value)`: `none` models the `ValueError` raised on a value
that is not a member of the enumeration. -/
def StoreType.ofString (s : String) : Option StoreType :=
  if s = "flagship" then some .flagship
  else if s = "regular" then some .regular
  else if s = "outlet" then some .outlet
  else if s = "express" then some .express
  else none

inductive StoreStatus where
  | active | inactive | temporarily_closed
deriving DecidableEq, Repr

def StoreStatus.ofString (s : String) : Option StoreStatus :=
  if s = "active" then some .active
  else if s = "inactive" then some .inactive
  else if s = "temporarily_closed" then some .temporarily_closed
  else none

/-- A row of the `stores` table.  `services` holds the names of the
associated service tags (the many-to-many association, read through
`store.services`); nullable columns are `Option`-valued. -/
structure StoreRec where
  store_id : String
  name : String
  store_type : StoreType
  status : StoreStatus
  latitude : Option ℚ
  longitude : Option ℚ
  address_street : Option String := none
  address_city : Option String := none
  address_state : Option String := none
  address_postal_code : Option String := none
  address_country : Option String := none
  phone : Option String := none
  hours_mon : Option String := some "closed"
  hours_tue : Option String := some "closed"
  hours_wed : Option String := some "closed"
  hours_thu : Option String := some "closed"
  hours_fri : Option String := some "closed"
  hours_sat : Option String := some "closed"
  hours_sun : Option String := some "closed"
  services : List String := []
deriving DecidableEq, Repr

/-- A row of the `services` table (`service_id` is the primary key, `name`
is unique). -/
structure ServiceRec where
  service_id : String
  name : String
deriving DecidableEq, Repr

/-- The relational store: the two tables the import pipeline touches. -/
structure DB where
  stores : List StoreRec
  services : List ServiceRec
deriving DecidableEq, Repr

/-! ## GeocodeCache (`geocoding_service.py`)

The external provider (`geolocator.geocode(s, timeout=5)`) is a parameter;
its four observable outcomes are a successful match, no match (`None`), a
`GeocoderTimedOut` exception, and a `GeocoderServiceError` exception.  The
`geocoding:` Redis namespace is an association list of entries carrying the
TTL (in days) they were stored with. -/

inductive ProviderResult where
  | found (latitude longitude : ℚ)
  | noMatch
  | timedOut
  | serviceError
deriving DecidableEq, Repr

structure GeoCacheEntry where
  key : String
  latitude : ℚ
  longitude : ℚ
  ttlDays : Nat
deriving DecidableEq, Repr

abbrev GeoCache := List GeoCacheEntry

def geoCacheLookup (cache : GeoCache) (k : String) : Option GeoCacheEntry :=
  cache.find? fun e => e.key = k

/-- `settings.GEOCODING_CACHE_TTL_DAYS` (`config.py`, default). -/
def GEOCODING_CACHE_TTL_DAYS : Nat := 30

/-- `get_coordinates_from_address(address, redis_client)`: read-through
lookup keyed by `"geocoding:" ++ address`; on a miss the provider is called,
a successful result is cached with the multi-day TTL and returned, and the
caught `GeocoderTimedOut`/`GeocoderServiceError` exceptions as well as a
no-match are normalized to `none` with no cache write. -/
def get_coordinates_from_address (provider : String → ProviderResult)
    (address : String) (cache : GeoCache) : Option (ℚ × ℚ) × GeoCache :=
  let cache_key := "geocoding:" ++ address
  match geoCacheLookup cache cache_key with
  | some e => (some (e.latitude, e.longitude), cache)
  | none =>
    match provider address with
    | .found la lo =>
      (some (la, lo), cache ++ [⟨cache_key, la, lo, GEOCODING_CACHE_TTL_DAYS⟩])
    | .noMatch => (none, cache)
    | .timedOut => (none, cache)
    | .serviceError => (none, cache)

/-- `get_coordinates_from_postal_code(postal_code, redis_client)`: textually
identical to `get_coordinates_from_address` apart from the parameter name. -/
def get_coordinates_from_postal_code (provider : String → ProviderResult)
    (postal_code : String) (cache : GeoCache) : Option (ℚ × ℚ) × GeoCache :=
  let cache_key := "geocoding:" ++ postal_code
  match geoCacheLookup cache cache_key with
  | some e => (some (e.latitude, e.longitude), cache)
  | none =>
    match provider postal_code with
    | .found la lo =>
      (some (la, lo), cache ++ [⟨cache_key, la, lo, GEOCODING_CACHE_TTL_DAYS⟩])
    | .noMatch => (none, cache)
    | .timedOut => (none, cache)
    | .serviceError => (none, cache)

/-! ## CSV import (`csv_import.py`): validation helpers -/

/-- One `"HH:MM"` component inside `validate_hours`: must contain a colon,
split into exactly two `int()`-parseable parts with hour in `[0, 24]`,
minute in `[0, 59]`, and hour 24 only together with minute 0 (any exception
is caught by the bare `except` and yields `False`). -/
def validTimePart (t : String) : Bool :=
  t.data.contains ':' &&
    match pySplitOn ':' t with
    | [h, m] =>
      match pyInt h, pyInt m with
      | some hv, some mv =>
        decide ((0 ≤ hv ∧ hv ≤ 24) ∧ (0 ≤ mv ∧ mv ≤ 59) ∧ ¬(hv = 24 ∧ mv > 0))
      | _, _ => false
    | _ => false

/-- `validate_hours(hours_str)`. -/
def validate_hours (hours_str : String) : Bool :=
  if hours_str = "" || pyLower hours_str = "closed" then true
  else
    match pySplitOn '-' hours_str with
    | [open_time, close_time] =>
      validTimePart (pyStrip open_time) && validTimePart (pyStrip close_time)
    | _ => false

/-- `parse_services(services_str)`: split on `|`, strip, drop empties (a
`None` argument is handled by the falsiness check and modelled by `""`). -/
def parse_services (services_str : String) : List String :=
  if services_str = "" then []
  else ((pySplitOn '|' services_str).map pyStrip).filter fun s => s ≠ ""

def weekdayKeys : List String :=
  ["mon", "tue", "wed", "thu", "fri", "sat", "sun"]

/-- `validate_store_row(row)`: `none` when valid, `some reason` for the
first failing check, in source order (required fields, store type, status,
coordinates, weekday hours).  Error strings follow the source messages,
with the offending original cell text interpolated. -/
def validate_store_row (row : Row) : Option String :=
  if ¬ truthy (pyGet row "store_id") then some "Missing required field: store_id"
  else if ¬ truthy (pyGet row "name") then some "Missing required field: name"
  else if truthy (pyGet row "store_type") ∧
      (StoreType.ofString (pyLower ((pyGet row "store_type").getD ""))).isNone then
    some ("Invalid store_type: " ++ (pyGet row "store_type").getD "")
  else if truthy (pyGet row "status") ∧
      (StoreStatus.ofString (pyLower ((pyGet row "status").getD ""))).isNone then
    some ("Invalid status: " ++ (pyGet row "status").getD "")
  else if truthy (pyGet row "latitude") then
    match pyFloat ((pyGet row "latitude").getD "") with
    | none => some ("Invalid latitude: " ++ (pyGet row "latitude").getD "")
    | some f =>
      if f < -90 ∨ f > 90 then some "Latitude out of range"
      else validateLonHours row
  else validateLonHours row
where
  validateLonHours (row : Row) : Option String :=
    if truthy (pyGet row "longitude") then
      match pyFloat ((pyGet row "longitude").getD "") with
      | none => some ("Invalid longitude: " ++ (pyGet row "longitude").getD "")
      | some f =>
        if f < -180 ∨ f > 180 then some "Longitude out of range"
        else validateHoursFields row
    else validateHoursFields row
  validateHoursFields (row : Row) : Option String :=
    (weekdayKeys.filterMap fun day =>
      let field := "hours_" ++ day
      if truthy (pyGet row field) ∧ ¬ validate_hours ((pyGet row field).getD "") then
        some ("Invalid hours format for " ++ day ++ ": " ++ (pyGet row field).getD "")
      else none).head?

/-! ## CSV import (`csv_import.py`): per-row processing

`process_csv_import` runs inside the request's transaction; within it each
row is processed under `with db.begin_nested():`, with the `try`/`except`
that catches row-level exceptions nested *inside* that `with` block.  Under
SQLAlchemy 1.4+ (required by the `sqlalchemy.orm.declarative_base` import
in `models.py`) the savepoint semantics the model follows are:

* an error raised by `Session.flush` — here the `IntegrityError` from
  `db.flush()` inside `get_service` — makes SQLAlchemy emit
  `ROLLBACK TO SAVEPOINT` and restore the session snapshot (pending adds
  expunged, dirty attribute writes discarded) before the exception
  propagates; the handler then records the failed outcome, and on exit the
  context manager finds the nested transaction already deactivated and
  closes it without committing anything;
* a plain Python exception (the sentinel `ValueError`, an enum
  `ValueError`, an `AttributeError`) is swallowed by the handler before the
  context manager sees it, so the `with` block exits normally, the
  savepoint is released, and session mutations made before the raise stay
  pending — after row validation the code performs no session mutation
  before any such raise, so nothing of the row survives there either.

Python-side objects — the results list, the counters and the
`service_cache` dictionary — are not session state and are never rolled
back. -/

structure ImportResult where
  row_number : Nat
  store_id : String
  status : String
  error : Option String := none
deriving DecidableEq, Repr

structure ImportReport where
  total_rows : Nat
  created : Nat
  updated : Nat
  failed : Nat
  results : List ImportResult
deriving DecidableEq, Repr

/-- The state threaded through an import call: the two tables, the
per-import `service_cache` (name → service), the accumulated per-row
results and the three counters. -/
structure IState where
  stores : List StoreRec
  services : List ServiceRec
  svcCache : List (String × ServiceRec)
  results : List ImportResult
  created : Nat
  updated : Nat
  failed : Nat
deriving DecidableEq, Repr

def findStore (st : IState) (sid : String) : Option StoreRec :=
  st.stores.find? fun s => s.store_id = sid

/-- Write back the (attribute-mutated) store record keyed by its id. -/
def writeStore (st : IState) (s : StoreRec) : IState :=
  { st with stores := st.stores.map fun t => if t.store_id = s.store_id then s else t }

def appendResult (st : IState) (r : ImportResult) : IState :=
  { st with results := st.results ++ [r] }

/-- `get_service(name)`: consult the per-import cache, then the `services`
table by name, else `db.add` a fresh `Service(service_id="SVC_"+NAME,
name=name)` and `db.flush()`; the flush raises `IntegrityError` when the
generated primary key already exists. -/
def get_service (name : String) (st : IState) : Except String (ServiceRec × IState) :=
  match st.svcCache.find? (fun p => p.1 = name) with
  | some p => .ok (p.2, st)
  | none =>
    match st.services.find? (fun s => s.name = name) with
    | some svc => .ok (svc, { st with svcCache := st.svcCache ++ [(name, svc)] })
    | none =>
      let svc : ServiceRec := ⟨"SVC_" ++ pyUpper name, name⟩
      if st.services.any (fun s => s.service_id = svc.service_id) then
        .error ("IntegrityError: duplicate key value services.service_id=" ++ svc.service_id)
      else
        .ok (svc, { st with services := st.services ++ [svc],
                            svcCache := st.svcCache ++ [(name, svc)] })

/-- The coordinate-resolution block: literal `latitude`/`longitude` cells
when both are truthy (assignment order preserved: a latitude that converts
is kept even when the longitude conversion then fails), else geocoding of
the comma-joined non-empty address components.  The geocoder argument
models `get_coordinates_from_address` together with its Redis cache (the
`redis_client.exists` check and `time.sleep(1)` throttle only affect
timing). -/
def resolveCoords (geocode : String → Option (ℚ × ℚ)) (row : Row) :
    Option ℚ × Option ℚ :=
  let lat_val := pyGet row "latitude"
  let lon_val := pyGet row "longitude"
  let parsed : Option ℚ × Option ℚ :=
    if truthy lat_val && truthy lon_val then
      match pyFloat (lat_val.getD "") with
      | none => (none, none)
      | some la =>
        match pyFloat (lon_val.getD "") with
        | none => (some la, none)
        | some lo => (some la, some lo)
    else (none, none)
  if parsed.1.isNone || parsed.2.isNone then
    let address_parts :=
      ([pyGet row "address_street", pyGet row "address_city",
        pyGet row "address_state", pyGet row "address_postal_code"].filter truthy).map
        fun v => v.getD ""
    if address_parts ≠ [] then
      match geocode (joinWith ", " address_parts) with
      | some c => (some c.1, some c.2)
      | none => parsed
    else parsed
  else parsed

/-- The field assignments of the update branch, in source order (`name`,
optional `store_type`/`status`, coordinates, address components and phone,
weekday hours).  Returns the record as mutated so far together with the
message of the first raised exception, if any: an assignment made before
the raise stays visible. -/
def updateFields (row : Row) (coords : Option ℚ × Option ℚ) (es : StoreRec) :
    StoreRec × Option String :=
  let es := { es with name := (pyGet row "name").getD "" }
  let stv := pyGet row "store_type"
  match (if truthy stv then some (pyLower (stv.getD "")) else none) with
  | some s =>
    match StoreType.ofString s with
    | none => (es, some ("ValueError: " ++ s ++ " is not a valid StoreType"))
    | some t =>
      updateAfterType row coords { es with store_type := t }
  | none => updateAfterType row coords es
where
  updateAfterType (row : Row) (coords : Option ℚ × Option ℚ) (es : StoreRec) :
      StoreRec × Option String :=
    let sts := pyGet row "status"
    match (if truthy sts then some (pyLower (sts.getD "")) else none) with
    | some s =>
      match StoreStatus.ofString s with
      | none => (es, some ("ValueError: " ++ s ++ " is not a valid StoreStatus"))
      | some t => (updatePlainFields row coords { es with status := t }, none)
    | none => (updatePlainFields row coords es, none)
  updatePlainFields (row : Row) (coords : Option ℚ × Option ℚ) (es : StoreRec) :
      StoreRec :=
    let es := match coords.1 with
      | some la => { es with latitude := some la }
      | none => es
    let es := match coords.2 with
      | some lo => { es with longitude := some lo }
      | none => es
    let setIf (v : Option String) (old : Option String) : Option String :=
      if truthy v then v else old
    { es with
      address_street := setIf (pyGet row "address_street") es.address_street
      address_city := setIf (pyGet row "address_city") es.address_city
      address_state := setIf (pyGet row "address_state") es.address_state
      address_postal_code := setIf (pyGet row "address_postal_code") es.address_postal_code
      address_country := setIf (pyGet row "address_country") es.address_country
      phone := setIf (pyGet row "phone") es.phone
      hours_mon := setIf (pyGet row "hours_mon") es.hours_mon
      hours_tue := setIf (pyGet row "hours_tue") es.hours_tue
      hours_wed := setIf (pyGet row "hours_wed") es.hours_wed
      hours_thu := setIf (pyGet row "hours_thu") es.hours_thu
      hours_fri := setIf (pyGet row "hours_fri") es.hours_fri
      hours_sat := setIf (pyGet row "hours_sat") es.hours_sat
      hours_sun := setIf (pyGet row "hours_sun") es.hours_sun }

/-- Sequential `store.services.append(get_service(name))` calls: returns the
names appended before the first failure, the state (a `get_service` that
added and flushed a new `Service` row leaves it in the table even when a
later call fails), and the first exception message. -/
def appendServices (names : List String) (st : IState) :
    List String × IState × Option String :=
  match names with
  | [] => ([], st, none)
  | n :: rest =>
    match get_service n st with
    | .error e => ([], st, some e)
    | .ok (svc, st') =>
      let (tail, st'', exc) := appendServices rest st'
      (svc.name :: tail, st'', exc)

/-- The `Store(...)` constructor argument for `store_type`:
`StoreType(row.get('store_type', 'regular').lower())`.  A key present with
value `None` raises `AttributeError` on `.lower()`; an enum mismatch raises
`ValueError`.  Both are evaluated before any mutation. -/
def storeTypeArg (row : Row) : Except String StoreType :=
  match pyGetD row "store_type" "regular" with
  | none => .error "AttributeError: NoneType object has no attribute lower"
  | some s =>
    match StoreType.ofString (pyLower s) with
    | none => .error ("ValueError: " ++ s ++ " is not a valid StoreType")
    | some t => .ok t

def statusArg (row : Row) : Except String StoreStatus :=
  match pyGetD row "status" "active" with
  | none => .error "AttributeError: NoneType object has no attribute lower"
  | some s =>
    match StoreStatus.ofString (pyLower s) with
    | none => .error ("ValueError: " ++ s ++ " is not a valid StoreStatus")
    | some t => .ok t

/-- An exception escaping the row body: its `str(e)` message, and whether it
was raised by `Session.flush` — in which case SQLAlchemy rolled the
savepoint back and restored the session snapshot before the exception
reached the handler. -/
structure RowExc where
  msg : String
  fromFlush : Bool
deriving DecidableEq, Repr

/-- The body of the `with db.begin_nested(): try: ...` block for one row,
after validation.  The returned state is the session state as the handler
(and then the loop) observes it; the second component is the raised
exception, `none` when the block ran to completion.  A flush-raised
`IntegrityError` restores the two tables to the snapshot taken at
`begin_nested` (= `st0`); the Python-side `service_cache`, results and
counters are untouched by that restore.  A plain `raise` keeps the session
mutations made before it.  The periodic `db.flush()` for every fiftieth
created/updated row only moves pending writes to the connection and is a
no-op here, where mutations are applied immediately. -/
def runRowBody (geocode : String → Option (ℚ × ℚ)) (row_number : Nat)
    (row : Row) (store_id : String) (st0 : IState) : IState × Option RowExc :=
  let existing_store := findStore st0 store_id
  let coords := resolveCoords geocode row
  if coords.1.isNone && existing_store.isNone then
    -- the failed outcome is recorded and `ValueError("Row-level validation
    -- failed")` is raised "to trigger the savepoint rollback"
    let st1 := appendResult st0
      ⟨row_number, store_id, "failed",
        some "Could not determine coordinates from CSV or geocoding"⟩
    ({ st1 with failed := st1.failed + 1 }, some ⟨"Row-level validation failed", false⟩)
  else
    let services_list := parse_services ((pyGet row "services").getD "")
    match existing_store with
    | some es =>
      let (es1, exc1) := updateFields row coords es
      let st1 := writeStore st0 es1
      match exc1 with
      | some e => (st1, some ⟨e, false⟩)
      | none =>
        if rowHasKey row "services" then
          let es2 := { es1 with services := [] }
          let (names, st3, exc2) := appendServices services_list (writeStore st1 es2)
          match exc2 with
          | some e =>
            -- the failed flush rolled the savepoint back: both tables revert
            -- to the snapshot; cache, results and counters are Python state
            ({ st3 with stores := st0.stores, services := st0.services },
             some ⟨e, true⟩)
          | none =>
            let st4 := writeStore st3 { es2 with services := names }
            let st5 := appendResult st4 ⟨row_number, store_id, "updated", none⟩
            ({ st5 with updated := st5.updated + 1 }, none)
        else
          let st5 := appendResult st1 ⟨row_number, store_id, "updated", none⟩
          ({ st5 with updated := st5.updated + 1 }, none)
    | none =>
      match storeTypeArg row with
      | .error e => (st0, some ⟨e, false⟩)
      | .ok stv =>
        match statusArg row with
        | .error e => (st0, some ⟨e, false⟩)
        | .ok sts =>
          let (names, st1, exc) := appendServices services_list st0
          match exc with
          | some e =>
            -- flush failure: the savepoint rollback restores both tables
            ({ st1 with stores := st0.stores, services := st0.services },
             some ⟨e, true⟩)
          | none =>
            let new_store : StoreRec :=
              { store_id := store_id
                name := (pyGet row "name").getD ""
                store_type := stv
                status := sts
                latitude := coords.1
                longitude := coords.2
                address_street := pyGet row "address_street"
                address_city := pyGet row "address_city"
                address_state := pyGet row "address_state"
                address_postal_code := pyGet row "address_postal_code"
                address_country := pyGetD row "address_country" "USA"
                phone := pyGet row "phone"
                hours_mon := pyGetD row "hours_mon" "closed"
                hours_tue := pyGetD row "hours_tue" "closed"
                hours_wed := pyGetD row "hours_wed" "closed"
                hours_thu := pyGetD row "hours_thu" "closed"
                hours_fri := pyGetD row "hours_fri" "closed"
                hours_sat := pyGetD row "hours_sat" "closed"
                hours_sun := pyGetD row "hours_sun" "closed"
                services := names }
            let st2 := { st1 with stores := st1.stores ++ [new_store] }
            let st3 := appendResult st2 ⟨row_number, store_id, "created", none⟩
            ({ st3 with created := st3.created + 1 }, none)

/-- All cell values of a row are stripped before validation
(`row = {k: (v.strip() if v else v) ...}`). -/
def stripRow (row : Row) : Row :=
  row.map fun p => (p.1, p.2.map pyStrip)

/-- `csv.DictReader` pairing of (stripped) header names with the cells of
one record; a record shorter than the header list fills the remaining keys
with `None` (`restval`). -/
def mkRow (headers : List String) (cells : List String) : Row :=
  headers.enum.map fun p => (p.2, cells[p.1]?)

/-- One iteration of the row loop: strip, validate (a validation failure
records a failed outcome and skips the row without touching storage), then
run the body under `with db.begin_nested()`.  The `try`/`except Exception`
inside the block swallows any exception; the state the handler observes is
the one `runRowBody` returns (snapshot-restored for flush failures, as
mutated before the raise otherwise), and the context-manager exit commits
nothing further either way.  The handler records an additional failed
outcome carrying `str(e)` unless the message is the sentinel
`"Row-level validation failed"` (whose outcome was recorded before the
raise). -/
def processRow (geocode : String → Option (ℚ × ℚ)) (row_number : Nat)
    (raw_row : Row) (st : IState) : IState :=
  let row := stripRow raw_row
  match validate_store_row row with
  | some error =>
    let st1 := appendResult st
      ⟨row_number, (pyGet row "store_id").getD "N/A", "failed", some error⟩
    { st1 with failed := st1.failed + 1 }
  | none =>
    let store_id := (pyGet row "store_id").getD ""
    match runRowBody geocode row_number row store_id st with
    | (st', none) => st'
    | (st', some e) =>
      if e.msg = "Row-level validation failed" then st'
      else
        let st1 := appendResult st'
          ⟨row_number, store_id, "failed", some ("Unexpected error: " ++ e.msg)⟩
        { st1 with failed := st1.failed + 1 }

/-- `process_csv_import(csv_content, db, redis_client)`.  The input is the
record list produced by `csv.reader` (first record: the header).  An empty
file and missing essential headers raise `ValueError`, modelled as
`Except.error`; otherwise the rows (blank records are skipped by
`DictReader`) are processed sequentially, numbered from 2, and the report
plus the final table state are returned.  The `service_cache` is pre-loaded
from the `services` table. -/
def process_csv_import (geocode : String → Option (ℚ × ℚ))
    (input : List (List String)) (db0 : DB) : Except String (ImportReport × DB) :=
  match input with
  | [] => .error "CSV file is empty"
  | headerCells :: dataRows =>
    let headers := headerCells.map pyStrip
    let missing := ["store_id", "name"].filter fun h => ¬ headers.contains h
    if missing ≠ [] then
      .error ("Missing essential headers: " ++ joinWith ", " missing)
    else
      let st0 : IState :=
        ⟨db0.stores, db0.services, db0.services.map (fun s => (s.name, s)), [], 0, 0, 0⟩
      let rows := dataRows.filter fun cs => cs ≠ []
      let stN := rows.enum.foldl
        (fun st p => processRow geocode (p.1 + 2) (mkRow headers p.2) st) st0
      .ok ({ total_rows := stN.results.length, created := stN.created,
             updated := stN.updated, failed := stN.failed, results := stN.results },
           ⟨stN.stores, stN.services⟩)

/-! ## Search schemas (`schemas.py`) as Lean structures -/

structure SearchLocation where
  latitude : Option ℚ := none
  longitude : Option ℚ := none
  address : Option String := none
  postal_code : Option String := none
deriving DecidableEq, Repr

structure SearchFilters where
  radius_miles : ℚ := 10
  services : Option (List String) := none
  store_types : Option (List StoreType) := none
  open_now : Option Bool := some false
deriving DecidableEq, Repr

structure SearchRequest where
  location : SearchLocation
  filters : Option SearchFilters := some {}
deriving DecidableEq, Repr

/-- `StoreResponse` as assembled by the search endpoint: the store row with
its computed distance and open flag. -/
structure StoreWithDistance where
  store : StoreRec
  distance : ℚ
  is_open_now : Bool
deriving DecidableEq, Repr

structure SearchMetadata where
  searched_location : SearchLocation
  applied_filters : SearchFilters
  total_results : Nat
deriving DecidableEq, Repr

structure SearchResultsResponse where
  data : List StoreWithDistance
  metadata : SearchMetadata
deriving DecidableEq, Repr

/-! ## `is_store_open` (`main.py`)

The wall clock is a parameter: the current weekday plus the current time.
Python compares `datetime.time` values; the parsed open/close times have
zero seconds, so the comparisons are decided at minute resolution and the
current time is carried as minutes since midnight. -/

inductive Weekday where
  | mon | tue | wed | thu | fri | sat | sun
deriving DecidableEq, Repr

structure TimeNow where
  day : Weekday
  minutes : Nat
deriving DecidableEq, Repr

def hoursOn (s : StoreRec) : Weekday → Option String
  | .mon => s.hours_mon
  | .tue => s.hours_tue
  | .wed => s.hours_wed
  | .thu => s.hours_thu
  | .fri => s.hours_fri
  | .sat => s.hours_sat
  | .sun => s.hours_sun

/-- `datetime.strptime(t, '%H:%M').time()` as minutes since midnight: two
colon-separated components of one or two digits each, hour ≤ 23,
minute ≤ 59; `none` models the `ValueError` on any other shape. -/
def strptimeHM (t : String) : Option Nat :=
  match pySplitOn ':' t with
  | [h, m] =>
    if (h.data ≠ [] ∧ h.data.length ≤ 2 ∧ h.data.all Char.isDigit) ∧
        (m.data ≠ [] ∧ m.data.length ≤ 2 ∧ m.data.all Char.isDigit) then
      let hv := digitsToNat h.data
      let mv := digitsToNat m.data
      if hv ≤ 23 ∧ mv ≤ 59 then some (hv * 60 + mv) else none
    else none
  | _ => none

/-- `is_store_open(store)`: inactive stores are closed; the literal
`"closed"` is closed; a malformed hours string raises `ValueError`, which is
caught and yields closed; an overnight window (`open > close`) spans
midnight.  A `None` hours column raises `AttributeError` on `.split`, which
the handler (`except ValueError`) does not catch — modelled as an error. -/
def is_store_open (s : StoreRec) (now : TimeNow) : Except String Bool :=
  if s.status ≠ StoreStatus.active then .ok false
  else
    match hoursOn s now.day with
    | none => .error "AttributeError: NoneType object has no attribute split"
    | some hours_str =>
      if hours_str = "closed" then .ok false
      else
        match pySplitOn '-' hours_str with
        | [open_str, close_str] =>
          match strptimeHM open_str, strptimeHM close_str with
          | some ot, some ct =>
            if ot ≤ ct then .ok (decide (ot ≤ now.minutes ∧ now.minutes < ct))
            else .ok (decide (now.minutes ≥ ot ∨ now.minutes < ct))
          | _, _ => .ok false
        | _ => .ok false

/-! ## The search endpoint (`search_stores` in `main.py`)

The environment bundles the collaborators: the stores table, the two
geocoding wrappers (with their `geocoding:` cache folded in), the wall
clock, and the two floating-point GeoMath kernels as opaque parameters —
every property proved below holds for any kernel instantiation, in
particular for `calculate_distance`/`calculate_bounding_box` on machine
floats.  Effects are counted so that short-circuiting can be stated. -/

structure RatBBox where
  min_lat : ℚ
  max_lat : ℚ
  min_lon : ℚ
  max_lon : ℚ
deriving DecidableEq, Repr

structure SearchEnv where
  db : List StoreRec
  geocodeAddress : String → Option (ℚ × ℚ)
  geocodePostal : String → Option (ℚ × ℚ)
  dist : ℚ → ℚ → ℚ → ℚ → ℚ
  bbox : ℚ → ℚ → ℚ → RatBBox
  now : TimeNow

structure SearchEffects where
  geocodeCalls : Nat := 0
  bboxCalls : Nat := 0
  storageQueries : Nat := 0
deriving DecidableEq, Repr

def truthyOpt (o : Option String) : Bool := (o.getD "") ≠ ""

/-- Line 129: `request.filters.radius_miles if request.filters else 10.0`. -/
def effectiveRadius (request : SearchRequest) : ℚ :=
  match request.filters with
  | some f => f.radius_miles
  | none => 10

/-- The SQL candidate query (lines 135-151): coordinates within the box
(SQL `BETWEEN`, `NULL` columns never match), active status, one join-filter
per requested service name (conjunctive), `store_type IN` the requested
list when that list is non-empty (Python truthiness skips the filter for
`None` and `[]`). -/
def candidateFilter (request : SearchRequest) (bb : RatBBox) (s : StoreRec) : Bool :=
  (match s.latitude with
   | some la => decide (bb.min_lat ≤ la ∧ la ≤ bb.max_lat)
   | none => false) &&
  (match s.longitude with
   | some lo => decide (bb.min_lon ≤ lo ∧ lo ≤ bb.max_lon)
   | none => false) &&
  (s.status = StoreStatus.active) &&
  (match request.filters with
   | some f =>
     (match f.services with
      | some svcs => svcs.all fun n => s.services.contains n
      | none => true) &&
     (match f.store_types with
      | some tys => if tys.isEmpty then true else tys.contains s.store_type
      | none => true)
   | none => true)

def openNowRequested (request : SearchRequest) : Bool :=
  match request.filters with
  | some f => f.open_now.getD false
  | none => false

/-- The final loop (lines 166-187): in sorted order, evaluate
`is_store_open` (its uncaught `AttributeError` propagates), skip closed
stores when `open_now` is requested, otherwise assemble a `StoreResponse`
with distance and open flag. -/
def buildFinal (now : TimeNow) (skipClosed : Bool) :
    List (StoreRec × ℚ) → Except String (List StoreWithDistance)
  | [] => .ok []
  | item :: rest =>
    match is_store_open item.1 now with
    | .error e => .error e
    | .ok isOpen =>
      if skipClosed && !isOpen then buildFinal now skipClosed rest
      else
        match buildFinal now skipClosed rest with
        | .error e => .error e
        | .ok tail => .ok (⟨item.1, item.2, isOpen⟩ :: tail)

/-- Step 2 of the endpoint (lines 98-127): coordinate resolution — explicit
coordinates when both are given, else geocoding of a truthy address, else of
a truthy postal code, else the "no location" client error; a geocoding
failure is the "could not geocode" client error naming the input. -/
def resolveLocation (env : SearchEnv) (request : SearchRequest) :
    Except String (ℚ × ℚ) × SearchEffects :=
  match request.location.latitude, request.location.longitude with
  | some la, some lo => (.ok (la, lo), {})
  | _, _ =>
    if truthyOpt request.location.address then
      match env.geocodeAddress ((request.location.address).getD "") with
      | some c => (.ok c, { geocodeCalls := 1 })
      | none =>
        (.error ("Could not geocode address: " ++ (request.location.address).getD ""),
         { geocodeCalls := 1 })
    else if truthyOpt request.location.postal_code then
      match env.geocodePostal ((request.location.postal_code).getD "") with
      | some c => (.ok c, { geocodeCalls := 1 })
      | none =>
        (.error ("Could not geocode postal code: " ++
            (request.location.postal_code).getD ""),
         { geocodeCalls := 1 })
    else
      (.error "Either latitude/longitude, address, or postal_code must be provided.",
       {})

/-- `Except` equality is decidable componentwise (needed to evaluate the
models on concrete inputs). -/
instance {ε α : Type} [DecidableEq ε] [DecidableEq α] :
    DecidableEq (Except ε α) := fun x y =>
  match x, y with
  | .ok a, .ok b =>
    if h : a = b then isTrue (by rw [h])
    else isFalse fun hc => by cases hc; exact h rfl
  | .error a, .error b =>
    if h : a = b then isTrue (by rw [h])
    else isFalse fun hc => by cases hc; exact h rfl
  | .ok _, .error _ => isFalse fun hc => by cases hc
  | .error _, .ok _ => isFalse fun hc => by cases hc

/-- Steps 3-9 for a resolved search point (lines 128-196): bounding box,
candidate query, exact-distance filter (`distance <= radius_miles`), stable
ascending sort by distance (`list.sort` is Timsort, a stable sort; the
stable sort of a list by a total preorder is unique, so it is modelled by
the stable insertion sort, which yields the identical list), the `open_now`
pass, and response assembly. -/
def searchCore (env : SearchEnv) (request : SearchRequest)
    (search_lat search_lon : ℚ) : Except String SearchResultsResponse :=
  let radius_miles := effectiveRadius request
  let bb := env.bbox search_lat search_lon radius_miles
  let potential_stores := env.db.filter (candidateFilter request bb)
  let stores_with_distance := potential_stores.filterMap fun s =>
    match s.latitude, s.longitude with
    | some la, some lo =>
      let d := env.dist search_lat search_lon la lo
      if d ≤ radius_miles then some (s, d) else none
    | _, _ => none
  let sorted := stores_with_distance.insertionSort fun a b => a.2 ≤ b.2
  match buildFinal env.now (openNowRequested request) sorted with
  | .error e => .error e
  | .ok final_stores =>
    .ok { data := final_stores
          metadata := { searched_location := request.location
                        applied_filters := (request.filters).getD {}
                        total_results := final_stores.length } }

/-- Steps 2-9 of the endpoint, i.e. everything after the result-cache
lookup.  Returns the response or the raised `HTTPException` detail, plus
the effect counts. -/
def computeSearch (env : SearchEnv) (request : SearchRequest) :
    Except String SearchResultsResponse × SearchEffects :=
  match resolveLocation env request with
  | (.error e, eff) => (.error e, eff)
  | (.ok (search_lat, search_lon), eff) =>
    (searchCore env request search_lat search_lon,
     { eff with bboxCalls := eff.bboxCalls + 1,
                storageQueries := eff.storageQueries + 1 })

/-- The `search:` Redis namespace: the cache key is
`"search:" + request.model_dump_json()`; since the serialization is
injective on requests, entries are keyed by the request value itself, and
the serialize/deserialize round trip through
`SearchResultsResponse.model_validate_json` is the identity. -/
abbrev SearchCache := List (SearchRequest × SearchResultsResponse)

def searchCacheLookup (cache : SearchCache) (request : SearchRequest) :
    Option SearchResultsResponse :=
  (cache.find? fun p => p.1 = request).map Prod.snd

/-- The whole endpoint (lines 89-204): on a result-cache hit the cached
response is deserialized and returned at once — no geocoding, no bounding
box, no storage query, no cache write; on a miss the response is computed
and, on success, stored in the cache under the request's key (with the
short TTL) before being returned.  An error response is not cached. -/
def search_stores (env : SearchEnv) (cache : SearchCache)
    (request : SearchRequest) :
    Except String SearchResultsResponse × SearchCache × SearchEffects :=
  match searchCacheLookup cache request with
  | some cached => (.ok cached, cache, {})
  | none =>
    match computeSearch env request with
    | (.error e, eff) => (.error e, cache, eff)
    | (.ok response, eff) => (.ok response, cache ++ [(request, response)], eff)

/-! ## Request-body validation (`schemas.py` + Pydantic semantics)

A minimal JSON value type and the validators that Pydantic derives from the
class declarations.  `SearchLocation` declares `Config.extra = "forbid"`,
so an unrecognized key inside the location object is a validation error;
`SearchFilters` and `SearchRequest` declare no such config, so Pydantic's
default applies and unrecognized keys there are silently ignored. -/

inductive Json where
  | null
  | bool (b : Bool)
  | num (q : ℚ)
  | str (s : String)
  | arr (items : List Json)
  | obj (fields : List (String × Json))

def jsonLookup (fields : List (String × Json)) (k : String) : Option Json :=
  (fields.find? fun p => p.1 = k).map Prod.snd

def searchLocationKeys : List String :=
  ["latitude", "longitude", "address", "postal_code"]

/-- An `Optional[float]` field constrained by `Field(None, ge=lo, le=hi)`:
absent and `null` give `None`; a number must be in range. -/
def parseOptNum (fields : List (String × Json)) (k : String) (lo hi : ℚ) :
    Except String (Option ℚ) :=
  match jsonLookup fields k with
  | none => .ok none
  | some .null => .ok none
  | some (.num q) =>
    if lo ≤ q ∧ q ≤ hi then .ok (some q)
    else .error (k ++ ": value out of range")
  | some _ => .error (k ++ ": expected a number")

def parseOptStr (fields : List (String × Json)) (k : String) :
    Except String (Option String) :=
  match jsonLookup fields k with
  | none => .ok none
  | some .null => .ok none
  | some (.str s) => .ok (some s)
  | some _ => .error (k ++ ": expected a string")

/-- `SearchLocation` validation: `extra = "forbid"`. -/
def parseSearchLocation (j : Json) : Except String SearchLocation :=
  match j with
  | .obj fields =>
    if fields.any (fun p => ¬ searchLocationKeys.contains p.1) then
      .error "location: extra fields not permitted"
    else
      match parseOptNum fields "latitude" (-90) 90 with
      | .error e => .error e
      | .ok la =>
        match parseOptNum fields "longitude" (-180) 180 with
        | .error e => .error e
        | .ok lo =>
          match parseOptStr fields "address" with
          | .error e => .error e
          | .ok ad =>
            match parseOptStr fields "postal_code" with
            | .error e => .error e
            | .ok pc =>
              .ok { latitude := la, longitude := lo, address := ad, postal_code := pc }
  | _ => .error "location: expected an object"

def parseStrList (j : Json) : Except String (List String) :=
  match j with
  | .arr items =>
    items.foldr (fun it acc =>
      match it, acc with
      | .str s, .ok l => .ok (s :: l)
      | _, .error e => .error e
      | _, _ => .error "expected a string") (.ok [])
  | _ => .error "expected an array"

def parseTypeList (j : Json) : Except String (List StoreType) :=
  match j with
  | .arr items =>
    items.foldr (fun it acc =>
      match it, acc with
      | .str s, .ok l =>
        match StoreType.ofString s with
        | some t => .ok (t :: l)
        | none => .error ("invalid StoreTypeEnum value: " ++ s)
      | _, .error e => .error e
      | _, _ => .error "expected a string") (.ok [])
  | _ => .error "expected an array"

/-- `SearchFilters` validation: no extra-field config, so unknown keys are
ignored; `radius_miles` defaults to 10 and must satisfy `gt=0, le=100`;
`open_now` defaults to `False`. -/
def parseSearchFilters (j : Json) : Except String SearchFilters :=
  match j with
  | .obj fields =>
    let radius : Except String ℚ :=
      match jsonLookup fields "radius_miles" with
      | none => .ok 10
      | some (.num q) =>
        if 0 < q ∧ q ≤ 100 then .ok q else .error "radius_miles: value out of range"
      | some _ => .error "radius_miles: expected a number"
    match radius with
    | .error e => .error e
    | .ok r =>
      let svcs : Except String (Option (List String)) :=
        match jsonLookup fields "services" with
        | none => .ok none
        | some .null => .ok none
        | some v => (parseStrList v).map some
      match svcs with
      | .error e => .error e
      | .ok sv =>
        let tys : Except String (Option (List StoreType)) :=
          match jsonLookup fields "store_types" with
          | none => .ok none
          | some .null => .ok none
          | some v => (parseTypeList v).map some
        match tys with
        | .error e => .error e
        | .ok ty =>
          match jsonLookup fields "open_now" with
          | none => .ok { radius_miles := r, services := sv, store_types := ty,
                          open_now := some false }
          | some .null => .ok { radius_miles := r, services := sv, store_types := ty,
                                open_now := none }
          | some (.bool b) => .ok { radius_miles := r, services := sv, store_types := ty,
                                    open_now := some b }
          | some _ => .error "open_now: expected a boolean"
  | _ => .error "filters: expected an object"

/-- `SearchRequest` validation: no extra-field config (extras ignored);
`location` is required; `filters` defaults to `SearchFilters()` via
`default_factory` and accepts `null`. -/
def parseSearchRequest (j : Json) : Except String SearchRequest :=
  match j with
  | .obj fields =>
    match jsonLookup fields "location" with
    | none => .error "location: field required"
    | some locJson =>
      match parseSearchLocation locJson with
      | .error e => .error e
      | .ok loc =>
        match jsonLookup fields "filters" with
        | none => .ok { location := loc, filters := some {} }
        | some .null => .ok { location := loc, filters := none }
        | some fJson =>
          match parseSearchFilters fJson with
          | .error e => .error e
          | .ok f => .ok { location := loc, filters := some f }
  | _ => .error "expected an object"

/-! ## Invariants and concrete fixtures used by the claim theorems -/

/-- A well-formed per-row outcome: one of the three statuses, and an error
message exactly when failed. -/
def wfResult (r : ImportResult) : Prop :=
  (r.status = "created" ∨ r.status = "updated" ∨ r.status = "failed") ∧
  (r.error ≠ none ↔ r.status = "failed")

/-- The import-loop invariant: counters sum to the number of recorded
outcomes, each of which is well-formed. -/
def ImportInv (st : IState) : Prop :=
  st.created + st.updated + st.failed = st.results.length ∧
  ∀ r ∈ st.results, wfResult r

/-- A pre-existing store row for the row-isolation scenario. -/
def c1ExistingStore : StoreRec :=
  { store_id := "B1", name := "Old Name", store_type := .regular, status := .active,
    latitude := some 40, longitude := some (-70), services := ["pharmacy"] }

def c1DB : DB :=
  { stores := [c1ExistingStore], services := [⟨"SVC_PHARMACY", "pharmacy"⟩] }

/-- A CSV that updates store `B1`, renaming it and replacing its service
list with `Pharmacy` — whose generated `service_id` `SVC_PHARMACY` collides
with the existing tag's primary key, so `db.flush()` inside `get_service`
raises `IntegrityError` after the name write and the `services.clear()`;
the savepoint rollback then discards both writes. -/
def c1Input : List (List String) :=
  [["store_id", "name", "services"], ["B1", "New Name", "Pharmacy"]]

/-- The `DictReader` row of `c1Input`'s single record. -/
def c1Row : Row :=
  [("store_id", some "B1"), ("name", some "New Name"), ("services", some "Pharmacy")]

/-- The import state on entering `c1Input`'s single row: `c1DB`'s tables
with the pre-loaded service cache and empty results. -/
def c1St0 : IState :=
  ⟨[c1ExistingStore], [⟨"SVC_PHARMACY", "pharmacy"⟩],
   [("pharmacy", ⟨"SVC_PHARMACY", "pharmacy"⟩)], [], 0, 0, 0⟩

/-- The `IntegrityError` raised by the failed flush of the colliding tag. -/
def c1Exc : RowExc :=
  ⟨"IntegrityError: duplicate key value services.service_id=SVC_PHARMACY", true⟩

def storeA : StoreRec :=
  { store_id := "S1", name := "Store One", store_type := .flagship,
    status := .active, latitude := some 1, longitude := some 1,
    services := ["pharmacy", "pickup"] }

def storeB : StoreRec :=
  { store_id := "S2", name := "Store Two", store_type := .regular,
    status := .active, latitude := some 2, longitude := some 2,
    services := ["pickup"] }

/-- A concrete search environment (with toy numeric kernels: the distance of
a store is its stored latitude, the box is the whole world). -/
def envW : SearchEnv :=
  { db := [storeB, storeA]
    geocodeAddress := fun _ => none
    geocodePostal := fun _ => none
    dist := fun _ _ sla _ => sla
    bbox := fun _ _ _ => ⟨-90, 90, -180, 180⟩
    now := ⟨.mon, 600⟩ }

def reqW : SearchRequest :=
  { location := { latitude := some 0, longitude := some 0 }
    filters := some { radius_miles := 10, services := some ["pharmacy"],
                      store_types := some [.flagship], open_now := some false } }

def reqW2 : SearchRequest :=
  { location := { latitude := some 0, longitude := some 0 }, filters := some {} }

def respW2 : SearchResultsResponse :=
  { data := [⟨storeA, 1, false⟩]
    metadata := { searched_location := reqW.location
                  applied_filters := { radius_miles := 10, services := some ["pharmacy"],
                                       store_types := some [.flagship],
                                       open_now := some false }
                  total_results := 1 } }

def respW3 : SearchResultsResponse :=
  { data := [⟨storeA, 1, false⟩, ⟨storeB, 2, false⟩]
    metadata := { searched_location := reqW2.location
                  applied_filters := {}
                  total_results := 2 } }

def cacheW : SearchCache := [(reqW2, respW3)]

/-- A request body with an unrecognized top-level field. -/
def c9body : Json :=
  .obj [("location", .obj [("latitude", .num 40), ("longitude", .num (-70))]),
        ("unexpected_field", .str "ignored")]

/-- A valid creation row supplying only the required and coordinate columns. -/
def c5Row : Row :=
  [("store_id", some "S1"), ("name", some "Store One"),
   ("latitude", some "40"), ("longitude", some "-70")]

def c5St0 : IState := ⟨[], [], [], [], 0, 0, 0⟩

def c5Store : StoreRec :=
  { store_id := "S1", name := "Store One", store_type := .regular,
    status := .active, latitude := some 40, longitude := some (-70),
    address_country := some "USA" }

def c5Out : IState := ⟨[c5Store], [], [], [⟨2, "S1", "created", none⟩], 1, 0, 0⟩

/-- Two data rows: a valid creation and a row missing its identifier. -/
def c10Input : List (List String) :=
  [["store_id", "name", "latitude", "longitude"],
   ["S1", "Store One", "40", "-70"],
   ["", "Bad Row", "1", "2"]]

def c10Report : ImportReport :=
  { total_rows := 2, created := 1, updated := 0, failed := 1,
    results := [⟨2, "S1", "created", none⟩,
                ⟨3, "", "failed", some "Missing required field: store_id"⟩] }

def c10DB1 : DB := ⟨[c5Store], []⟩

/-! ## Theorems

Helper lemmas first, then one theorem per specification claim (with its
witness or counterexample where applicable). -/

/-- C8: `calculate_distance` returns exactly 0 for identical coordinate
pairs and is symmetric in its two points. -/
theorem distance_zero_and_symm :
    (∀ lat lon : ℝ, calculate_distance lat lon lat lon = 0) ∧
    (∀ a b c d : ℝ, calculate_distance a b c d = calculate_distance c d a b) := by
  constructor
  · intro lat lon
    simp [calculate_distance]
  · intro a b c d
    unfold calculate_distance
    have h : ∀ x y : ℝ, Real.sin ((x - y) / 2) ^ 2 = Real.sin ((y - x) / 2) ^ 2 := by
      intro x y
      rw [show (x - y) / 2 = -((y - x) / 2) by ring, Real.sin_neg, neg_sq]
    simp only
    rw [h, h, h (radians d) (radians b), mul_comm (Real.cos (radians a))]

/-- C4 (counterexample): at latitude 90, longitude 0, radius 0 the strict
containment `min_lat < lat < max_lat ∧ min_lon < lon < max_lon` claimed for
every latitude, longitude and radius fails: `max_lat` is clamped to
`90 = lat`. -/
theorem bounding_box_strict_counterexample :
    ¬ ((calculate_bounding_box 90 0 0).min_lat < 90 ∧
       90 < (calculate_bounding_box 90 0 0).max_lat ∧
       (calculate_bounding_box 90 0 0).min_lon < 0 ∧
       0 < (calculate_bounding_box 90 0 0).max_lon) := by
  intro h
  have h2 := h.2.1
  rw [calculate_bounding_box] at h2
  norm_num at h2

/-- C4 (amended): the latitude bounds of `calculate_bounding_box` are
always within `[-90, 90]`; the strict containment of the centre holds for
every positive radius and latitude strictly inside `(-90, 90)` (at the
boundary latitudes the clamp makes it an equality, and at radius 0 all four
deltas vanish); and the longitude bounds are neither wrapped nor clamped —
at latitude 0, longitude 180, radius 69 the box reaches `max_lon = 181`. -/
theorem bounding_box_amended :
    (∀ lat lon r : ℝ,
      -90 ≤ (calculate_bounding_box lat lon r).min_lat ∧
      (calculate_bounding_box lat lon r).max_lat ≤ 90) ∧
    (∀ lat lon r : ℝ, 0 < r → -90 < lat → lat < 90 →
      (calculate_bounding_box lat lon r).min_lat < lat ∧
      lat < (calculate_bounding_box lat lon r).max_lat ∧
      (calculate_bounding_box lat lon r).min_lon < lon ∧
      lon < (calculate_bounding_box lat lon r).max_lon) ∧
    (calculate_bounding_box 0 180 69).max_lon = 181 := by
  refine ⟨fun lat lon r => ⟨le_max_left _ _, min_le_left _ _⟩, ?_, ?_⟩
  · intro lat lon r hr hlo hhi
    have hpi := Real.pi_pos
    have h69 : 0 < r / 69 := by positivity
    have hd : 0 < (if |Real.cos (radians lat)| < 1e-6 then
        r / EARTH_RADIUS_MILES * 360 / (2 * Real.pi)
      else r / (69 * Real.cos (radians lat))) := by
      split
      · have hE : (0:ℝ) < EARTH_RADIUS_MILES := by norm_num [EARTH_RADIUS_MILES]
        positivity
      · have h1 : radians lat < Real.pi / 2 := by
          rw [radians]; nlinarith [mul_pos (sub_pos.mpr hhi) Real.pi_pos]
        have h2 : -(Real.pi / 2) < radians lat := by
          rw [radians]; nlinarith [mul_pos (show (0:ℝ) < lat + 90 by linarith) Real.pi_pos]
        have hcos : 0 < Real.cos (radians lat) := Real.cos_pos_of_mem_Ioo ⟨h2, h1⟩
        positivity
    refine ⟨?_, ?_, ?_, ?_⟩
    · simp only [calculate_bounding_box]
      exact max_lt hlo (by linarith)
    · simp only [calculate_bounding_box]
      exact lt_min hhi (by linarith)
    · simp only [calculate_bounding_box]
      exact sub_lt_self _ hd
    · simp only [calculate_bounding_box]
      exact lt_add_of_pos_right _ hd
  · have hcos : Real.cos (radians 0) = 1 := by
      rw [show radians 0 = 0 by simp [radians], Real.cos_zero]
    simp only [calculate_bounding_box, hcos]
    rw [if_neg (by rw [abs_one]; norm_num)]
    norm_num

/-- C4 (witness): the amended bounds instantiated at latitude 89,
longitude 0, radius 10. -/
theorem bounding_box_amended_witness :
    (0:ℝ) < 10 ∧ (-90:ℝ) < 89 ∧ (89:ℝ) < 90 ∧
    ((calculate_bounding_box 89 0 10).min_lat < 89 ∧
     89 < (calculate_bounding_box 89 0 10).max_lat ∧
     (calculate_bounding_box 89 0 10).min_lon < 0 ∧
     0 < (calculate_bounding_box 89 0 10).max_lon) :=
  ⟨by norm_num, by norm_num, by norm_num,
   bounding_box_amended.2.1 89 0 10 (by norm_num) (by norm_num) (by norm_num)⟩

/-- C7: a geocode lookup that misses the cache and whose provider call
fails — no match, timeout, or service error — returns not-found with the
cache unchanged (negative results are never cached); only a successful
resolution writes a cache entry, carrying the 30-day TTL.  Both wrappers
behave identically. -/
theorem geocode_no_negative_caching (provider : String → ProviderResult)
    (s : String) (cache : GeoCache)
    (hmiss : geoCacheLookup cache ("geocoding:" ++ s) = none) :
    ((provider s = .noMatch ∨ provider s = .timedOut ∨ provider s = .serviceError) →
      get_coordinates_from_address provider s cache = (none, cache) ∧
      get_coordinates_from_postal_code provider s cache = (none, cache)) ∧
    (∀ la lo, provider s = .found la lo →
      get_coordinates_from_address provider s cache =
        (some (la, lo),
         cache ++ [⟨"geocoding:" ++ s, la, lo, GEOCODING_CACHE_TTL_DAYS⟩]) ∧
      get_coordinates_from_postal_code provider s cache =
        (some (la, lo),
         cache ++ [⟨"geocoding:" ++ s, la, lo, GEOCODING_CACHE_TTL_DAYS⟩])) ∧
    GEOCODING_CACHE_TTL_DAYS = 30 := by
  simp only [get_coordinates_from_address, get_coordinates_from_postal_code, hmiss]
  refine ⟨?_, ?_, rfl⟩
  · rintro (h | h | h) <;> rw [h] <;> exact ⟨rfl, rfl⟩
  · intro la lo h
    rw [h]
    exact ⟨rfl, rfl⟩

/-- C7 (witness): a timed-out provider on an empty cache. -/
theorem geocode_no_negative_caching_witness :
    geoCacheLookup [] ("geocoding:" ++ "5 Main St") = none ∧
    get_coordinates_from_address (fun _ => .timedOut) "5 Main St" [] = (none, []) := by
  refine ⟨rfl, ?_⟩
  exact ((geocode_no_negative_caching (fun _ => .timedOut) "5 Main St" [] rfl).1
    (Or.inr (Or.inl rfl))).1

/-- Every element of a list built by the `open_now` pass comes from an
element of the input list, keeping its store and distance. -/
theorem buildFinal_mem {now : TimeNow} {skip : Bool} :
    ∀ {l : List (StoreRec × ℚ)} {res : List StoreWithDistance},
      buildFinal now skip l = .ok res →
      ∀ x ∈ res, ∃ y ∈ l, x.store = y.1 ∧ x.distance = y.2
  | [], res, h => by
    simp only [buildFinal] at h
    cases h
    intro x hx
    cases hx
  | item :: rest, res, h => by
    simp only [buildFinal] at h
    split at h
    · cases h
    · split at h
      · intro x hx
        obtain ⟨y, hy, hxy⟩ := buildFinal_mem h x hx
        exact ⟨y, List.mem_cons_of_mem _ hy, hxy⟩
      · split at h
        · cases h
        · rename_i tail ht
          cases h
          intro x hx
          rcases List.mem_cons.mp hx with hx | hx
          · subst hx
            exact ⟨item, List.mem_cons_self _ _, rfl, rfl⟩
          · obtain ⟨y, hy, hxy⟩ := buildFinal_mem ht x hx
            exact ⟨y, List.mem_cons_of_mem _ hy, hxy⟩

/-- The `open_now` pass preserves sortedness by distance. -/
theorem buildFinal_pairwise {now : TimeNow} {skip : Bool} :
    ∀ {l : List (StoreRec × ℚ)} {res : List StoreWithDistance},
      List.Pairwise (fun a b : StoreRec × ℚ => a.2 ≤ b.2) l →
      buildFinal now skip l = .ok res →
      List.Pairwise (fun a b : StoreWithDistance => a.distance ≤ b.distance) res
  | [], res, _, h => by
    simp only [buildFinal] at h
    cases h
    exact List.Pairwise.nil
  | item :: rest, res, hp, h => by
    simp only [buildFinal] at h
    have hp' := List.pairwise_cons.mp hp
    split at h
    · cases h
    · split at h
      · exact buildFinal_pairwise hp'.2 h
      · split at h
        · cases h
        · rename_i tail ht
          cases h
          refine List.pairwise_cons.mpr ⟨?_, buildFinal_pairwise hp'.2 ht⟩
          intro z hz
          obtain ⟨y, hy, _, hzd⟩ := buildFinal_mem ht z hz
          rw [hzd]
          exact hp'.1 y hy

/-- Any successful `searchCore` response is sorted by distance, and every
returned entry is within the effective radius and satisfies the SQL
candidate filter of the request. -/
theorem searchCore_inv {env : SearchEnv} {request : SearchRequest}
    {la lo : ℚ} {resp : SearchResultsResponse}
    (h : searchCore env request la lo = .ok resp) :
    List.Pairwise (fun a b : StoreWithDistance => a.distance ≤ b.distance) resp.data ∧
    ∀ x ∈ resp.data, x.distance ≤ effectiveRadius request ∧
      candidateFilter request (env.bbox la lo (effectiveRadius request)) x.store = true := by
  simp only [searchCore] at h
  split at h
  · cases h
  · rename_i final hbf
    cases h
    haveI : IsTotal (StoreRec × ℚ) (fun a b => a.2 ≤ b.2) := ⟨fun a b => le_total a.2 b.2⟩
    haveI : IsTrans (StoreRec × ℚ) (fun a b => a.2 ≤ b.2) := ⟨fun _ _ _ => le_trans⟩
    have hsorted : List.Pairwise (fun a b : StoreRec × ℚ => a.2 ≤ b.2)
        (List.insertionSort (fun a b => a.2 ≤ b.2)
          ((List.filter (candidateFilter request
              (env.bbox la lo (effectiveRadius request))) env.db).filterMap fun s =>
            match s.latitude, s.longitude with
            | some sla, some slo =>
              let d := env.dist la lo sla slo
              if d ≤ effectiveRadius request then some (s, d) else none
            | _, _ => none)) :=
      List.sorted_insertionSort _ _
    constructor
    · exact buildFinal_pairwise hsorted hbf
    · intro x hx
      obtain ⟨y, hy, hstore, hdist⟩ := buildFinal_mem hbf x hx
      have hy' := (List.perm_insertionSort
        (fun a b : StoreRec × ℚ => a.2 ≤ b.2) _).mem_iff.mp hy
      obtain ⟨s, hs, heq⟩ := List.mem_filterMap.mp hy'
      have hcand := (List.mem_filter.mp hs).2
      cases hla : s.latitude with
      | none => rw [hla] at heq; cases heq
      | some sla =>
        cases hlo : s.longitude with
        | none => rw [hla, hlo] at heq; cases heq
        | some slo =>
          rw [hla, hlo] at heq
          simp only at heq
          split at heq
          · cases heq
            rename_i hd
            exact ⟨by rw [hdist]; exact hd, by rw [hstore]; exact hcand⟩
          · cases heq

/-- C3: every response computed by the search pipeline (cache misses; a
cache hit replays a response this theorem already covered when it was
computed) lists stores in non-decreasing order of their computed distance
from the resolved search point, and every listed distance is at most the
effective radius — the filter-supplied one or the 10-mile default.  This
holds for any instantiation of the distance and bounding-box kernels, and
in particular when the `open_now` pass has removed candidates. -/
theorem search_results_sorted_and_within_radius {env : SearchEnv}
    {request : SearchRequest} {resp : SearchResultsResponse} {eff : SearchEffects}
    (h : computeSearch env request = (.ok resp, eff)) :
    List.Pairwise (fun a b : StoreWithDistance => a.distance ≤ b.distance) resp.data ∧
    ∀ x ∈ resp.data, x.distance ≤ effectiveRadius request := by
  unfold computeSearch at h
  split at h
  · simp at h
  · rename_i p search_lat search_lon eff0 heq
    rw [Prod.mk.injEq] at h
    have inv := searchCore_inv h.1
    exact ⟨inv.1, fun x hx => (inv.2 x hx).1⟩

/-- C3 (witness): the two-store environment, no filters — both stores
returned sorted `[1, 2]` within the default radius. -/
theorem search_results_sorted_witness :
    computeSearch envW reqW2 = (.ok respW3, ⟨0, 1, 1⟩) ∧
    (List.Pairwise (fun a b : StoreWithDistance => a.distance ≤ b.distance) respW3.data ∧
     ∀ x ∈ respW3.data, x.distance ≤ effectiveRadius reqW2) :=
  ⟨by decide,
   @search_results_sorted_and_within_radius envW reqW2 respW3 ⟨0, 1, 1⟩ (by decide)⟩

/-- C2: every store in a computed search response has every one of the
requested service names (the per-name join filters are conjunctive), and
when a non-empty store-type list is given its type is one of the listed
types (an empty list is falsy in Python and disables the filter). -/
theorem search_service_and_type_filters {env : SearchEnv}
    {request : SearchRequest} {resp : SearchResultsResponse} {eff : SearchEffects}
    (h : computeSearch env request = (.ok resp, eff)) :
    ∀ x ∈ resp.data, ∀ f, request.filters = some f →
      (∀ svcs, f.services = some svcs → ∀ n ∈ svcs, n ∈ x.store.services) ∧
      (∀ tys, f.store_types = some tys → tys ≠ [] → x.store.store_type ∈ tys) := by
  unfold computeSearch at h
  split at h
  · simp at h
  · rename_i p search_lat search_lon eff0 heq
    rw [Prod.mk.injEq] at h
    have inv := searchCore_inv h.1
    intro x hx f hf
    have hcand := (inv.2 x hx).2
    simp only [candidateFilter, Bool.and_eq_true] at hcand
    have hfilters := hcand.2
    rw [hf] at hfilters
    dsimp only at hfilters
    rw [Bool.and_eq_true] at hfilters
    constructor
    · intro svcs hsvcs n hn
      have hsvc := hfilters.1
      rw [hsvcs] at hsvc
      dsimp only at hsvc
      rw [List.all_eq_true] at hsvc
      have := hsvc n hn
      simpa using this
    · intro tys htys hne
      have hty := hfilters.2
      rw [htys] at hty
      dsimp only at hty
      rw [if_neg (by simpa using hne)] at hty
      simpa using hty

/-- C2 (witness): filtering by `services=["pharmacy"]` and
`store_types=[flagship]` returns only the flagship store with the pharmacy
tag. -/
theorem search_filters_witness :
    computeSearch envW reqW = (.ok respW2, ⟨0, 1, 1⟩) ∧
    (∀ n ∈ ["pharmacy"], n ∈ (⟨storeA, 1, false⟩ : StoreWithDistance).store.services) ∧
    (⟨storeA, 1, false⟩ : StoreWithDistance).store.store_type ∈ [StoreType.flagship] := by
  have h : computeSearch envW reqW = (.ok respW2, ⟨0, 1, 1⟩) := by decide
  have happ := search_service_and_type_filters h ⟨storeA, 1, false⟩ (by decide) _ rfl
  exact ⟨h, fun n hn => (happ.1 ["pharmacy"] rfl) n hn,
    happ.2 [StoreType.flagship] rfl (by simp)⟩

/-- C6: a result-cache hit returns the cached response immediately — no
geocoding call, no bounding-box computation, no storage query, no cache
write; and after a cache-missing request succeeds, an identical request
against the updated cache returns the same response with zero effects (in
particular no new geocoder call). -/
theorem cache_hit_short_circuits :
    (∀ (env : SearchEnv) (cache : SearchCache) (request : SearchRequest)
        (resp : SearchResultsResponse),
      searchCacheLookup cache request = some resp →
      search_stores env cache request = (.ok resp, cache, ⟨0, 0, 0⟩)) ∧
    (∀ (env : SearchEnv) (cache : SearchCache) (request : SearchRequest)
        (resp : SearchResultsResponse) (cache' : SearchCache) (eff : SearchEffects),
      searchCacheLookup cache request = none →
      search_stores env cache request = (.ok resp, cache', eff) →
      search_stores env cache' request = (.ok resp, cache', ⟨0, 0, 0⟩)) := by
  constructor
  · intro env cache request resp hhit
    unfold search_stores
    rw [hhit]
  · intro env cache request resp cache' eff hmiss h
    unfold search_stores at h
    rw [hmiss] at h
    dsimp only at h
    split at h
    · simp at h
    · rename_i response eff0 hcs
      rw [Prod.mk.injEq, Prod.mk.injEq, Except.ok.injEq] at h
      obtain ⟨h1, h2, h3⟩ := h
      subst h1
      subst h2
      have hfind : List.find? (fun p => decide (p.1 = request)) cache = none := by
        unfold searchCacheLookup at hmiss
        cases hfo : List.find? (fun p => decide (p.1 = request)) cache with
        | none => rfl
        | some p => rw [hfo] at hmiss; cases hmiss
      have hlookup : searchCacheLookup (cache ++ [(request, response)]) request =
          some response := by
        unfold searchCacheLookup
        rw [List.find?_append, hfind]
        simp [List.find?]
      unfold search_stores
      rw [hlookup]

/-- C6 (witness): a cached request is served from the cache with zero
effects; the same request, starting from an empty cache, computes, caches
and then replays its response. -/
theorem cache_hit_short_circuits_witness :
    searchCacheLookup cacheW reqW2 = some respW3 ∧
    search_stores envW cacheW reqW2 = (.ok respW3, cacheW, ⟨0, 0, 0⟩) ∧
    searchCacheLookup [] reqW2 = none ∧
    search_stores envW [] reqW2 = (.ok respW3, [(reqW2, respW3)], ⟨0, 1, 1⟩) ∧
    search_stores envW [(reqW2, respW3)] reqW2 =
      (.ok respW3, [(reqW2, respW3)], ⟨0, 0, 0⟩) := by
  have h1 : searchCacheLookup cacheW reqW2 = some respW3 := by decide
  have h4 : search_stores envW [] reqW2 = (.ok respW3, [(reqW2, respW3)], ⟨0, 1, 1⟩) := by
    decide
  exact ⟨h1, cache_hit_short_circuits.1 envW cacheW reqW2 respW3 h1, by decide, h4,
    cache_hit_short_circuits.2 envW [] reqW2 respW3 [(reqW2, respW3)] ⟨0, 1, 1⟩
      (by decide) h4⟩

/-- C9 (counterexample): a search request body carrying the unrecognized
top-level field `unexpected_field` is accepted, not rejected — only the
location object forbids extra fields. -/
theorem extra_field_accepted_counterexample :
    parseSearchRequest c9body =
      .ok { location := { latitude := some 40, longitude := some (-70),
                          address := none, postal_code := none },
            filters := some {} } := by decide

/-- C9 (amended): an unrecognized field inside the location object is
rejected (`SearchLocation` sets `extra = "forbid"`); unrecognized fields at
the top level of the request or inside the filters object are ignored and
the request is accepted (Pydantic's default `extra` behaviour). -/
theorem extra_field_rejection_amended :
    (∀ (fields locFields : List (String × Json)),
      jsonLookup fields "location" = some (.obj locFields) →
      (∃ p ∈ locFields, p.1 ∉ searchLocationKeys) →
      parseSearchRequest (.obj fields) = .error "location: extra fields not permitted") ∧
    parseSearchRequest
      (.obj [("location", .obj [("latitude", .num 40), ("longitude", .num (-70))]),
             ("extra_top", .bool true)]) =
      .ok { location := { latitude := some 40, longitude := some (-70),
                          address := none, postal_code := none },
            filters := some {} } ∧
    parseSearchRequest
      (.obj [("location", .obj [("latitude", .num 40), ("longitude", .num (-70))]),
             ("filters", .obj [("radius_miles", .num 5), ("extra_filter", .bool true)])]) =
      .ok { location := { latitude := some 40, longitude := some (-70),
                          address := none, postal_code := none },
            filters := some { radius_miles := 5 } } := by
  refine ⟨?_, by decide, by decide⟩
  rintro fields locFields hloc ⟨p, hp, hpk⟩
  have hps : parseSearchLocation (.obj locFields) =
      .error "location: extra fields not permitted" := by
    unfold parseSearchLocation
    dsimp only
    rw [if_pos (List.any_eq_true.mpr ⟨p, hp, by simpa using hpk⟩)]
  unfold parseSearchRequest
  dsimp only
  rw [hloc]
  dsimp only
  rw [hps]

/-- C9 (witness): a location object with the unrecognized key `mystery` is
rejected. -/
theorem extra_field_rejection_witness :
    jsonLookup [("location", Json.obj [("mystery", Json.num 1)])] "location" =
      some (.obj [("mystery", Json.num 1)]) ∧
    parseSearchRequest (.obj [("location", .obj [("mystery", .num 1)])]) =
      .error "location: extra fields not permitted" := by
  refine ⟨rfl, ?_⟩
  exact extra_field_rejection_amended.1 _ _ rfl
    ⟨("mystery", Json.num 1), List.mem_singleton.mpr rfl, by decide⟩

/-- `get_service` mutates only the services table and the per-import cache:
stores, results and counters are untouched. -/
theorem get_service_state {n : String} {st : IState} {svc : ServiceRec} {st' : IState}
    (h : get_service n st = .ok (svc, st')) :
    st'.stores = st.stores ∧ st'.results = st.results ∧
    st'.created = st.created ∧ st'.updated = st.updated ∧ st'.failed = st.failed := by
  unfold get_service at h
  split at h
  · cases h; exact ⟨rfl, rfl, rfl, rfl, rfl⟩
  · split at h
    · cases h; exact ⟨rfl, rfl, rfl, rfl, rfl⟩
    · dsimp only at h
      split at h
      · cases h
      · cases h; exact ⟨rfl, rfl, rfl, rfl, rfl⟩

/-- The service-append loop mutates only the services table and cache. -/
theorem appendServices_state :
    ∀ {l : List String} {st : IState} {ns : List String} {st' : IState}
      {exc : Option String},
      appendServices l st = (ns, st', exc) →
      st'.stores = st.stores ∧ st'.results = st.results ∧
      st'.created = st.created ∧ st'.updated = st.updated ∧ st'.failed = st.failed
  | [], st, ns, st', exc, h => by
    simp only [appendServices] at h
    cases h
    exact ⟨rfl, rfl, rfl, rfl, rfl⟩
  | n :: rest, st, ns, st', exc, h => by
    simp only [appendServices] at h
    split at h
    · cases h; exact ⟨rfl, rfl, rfl, rfl, rfl⟩
    · rename_i svc st1 hget
      rcases hrec : appendServices rest st1 with ⟨tail, st2, exc2⟩
      rw [hrec] at h
      cases h
      have h1 := get_service_state hget
      have h2 := appendServices_state hrec
      exact ⟨h2.1.trans h1.1, h2.2.1.trans h1.2.1, h2.2.2.1.trans h1.2.2.1,
        h2.2.2.2.1.trans h1.2.2.2.1, h2.2.2.2.2.trans h1.2.2.2.2⟩

/-- Projection form of `appendServices_state`. -/
theorem appendServices_fields (l : List String) (st : IState) :
    (appendServices l st).2.1.stores = st.stores ∧
    (appendServices l st).2.1.results = st.results ∧
    (appendServices l st).2.1.created = st.created ∧
    (appendServices l st).2.1.updated = st.updated ∧
    (appendServices l st).2.1.failed = st.failed := by
  rcases hap : appendServices l st with ⟨ns, st', exc⟩
  exact appendServices_state hap

/-- The import invariant only reads results and counters. -/
theorem ImportInv_of_fields {st st' : IState}
    (hres : st'.results = st.results) (hc : st'.created = st.created)
    (hu : st'.updated = st.updated) (hf : st'.failed = st.failed)
    (h : ImportInv st) : ImportInv st' := by
  unfold ImportInv at *
  rw [hres, hc, hu, hf]
  exact h

/-- Recording one well-formed outcome together with one counter increment
preserves the import invariant. -/
theorem ImportInv_record {st st' : IState} {r : ImportResult}
    (hres : st'.results = st.results ++ [r])
    (hsum : st'.created + st'.updated + st'.failed =
      st.created + st.updated + st.failed + 1)
    (hr : wfResult r) (h : ImportInv st) : ImportInv st' := by
  unfold ImportInv at *
  constructor
  · rw [hsum, hres, List.length_append, h.1]
    simp
  · intro x hx
    rw [hres] at hx
    rcases List.mem_append.mp hx with hx | hx
    · exact h.2 x hx
    · rw [List.mem_singleton.mp hx]
      exact hr

/-- Every outcome of the row body preserves the import invariant. -/
theorem runRowBody_inv {geocode : String → Option (ℚ × ℚ)} {row_number : Nat}
    {row : Row} {store_id : String} {st0 st' : IState} {exc : Option RowExc}
    (hInv : ImportInv st0)
    (h : runRowBody geocode row_number row store_id st0 = (st', exc)) :
    ImportInv st' := by
  simp only [runRowBody] at h
  split at h
  · rw [Prod.mk.injEq] at h
    obtain ⟨h1, _⟩ := h
    subst h1
    exact ImportInv_record rfl rfl ⟨Or.inr (Or.inr rfl), by simp⟩ hInv
  · split at h
    · rename_i es hes
      split at h
      · rw [Prod.mk.injEq] at h
        obtain ⟨h1, _⟩ := h
        subst h1
        exact hInv
      · split at h
        · rename_i hu hkey
          split at h
          · rw [Prod.mk.injEq] at h
            obtain ⟨h1, _⟩ := h
            subst h1
            have hf := appendServices_fields
              (parse_services ((pyGet row "services").getD ""))
              (writeStore (writeStore st0 (updateFields row (resolveCoords geocode row) es).1)
                { (updateFields row (resolveCoords geocode row) es).1 with services := [] })
            exact ImportInv_of_fields hf.2.1 hf.2.2.1 hf.2.2.2.1 hf.2.2.2.2 hInv
          · rw [Prod.mk.injEq] at h
            obtain ⟨h1, _⟩ := h
            subst h1
            have hf := appendServices_fields
              (parse_services ((pyGet row "services").getD ""))
              (writeStore (writeStore st0 (updateFields row (resolveCoords geocode row) es).1)
                { (updateFields row (resolveCoords geocode row) es).1 with services := [] })
            have hmid := ImportInv_of_fields hf.2.1 hf.2.2.1 hf.2.2.2.1 hf.2.2.2.2 hInv
            exact ImportInv_record rfl (by dsimp only [appendResult, writeStore]; omega)
              ⟨Or.inr (Or.inl rfl), by simp⟩ hmid
        · rw [Prod.mk.injEq] at h
          obtain ⟨h1, _⟩ := h
          subst h1
          exact ImportInv_record rfl (by dsimp only [appendResult, writeStore]; omega)
            ⟨Or.inr (Or.inl rfl), by simp⟩ hInv
    · split at h
      · rw [Prod.mk.injEq] at h
        obtain ⟨h1, _⟩ := h
        subst h1
        exact hInv
      · split at h
        · rw [Prod.mk.injEq] at h
          obtain ⟨h1, _⟩ := h
          subst h1
          exact hInv
        · split at h
          · rw [Prod.mk.injEq] at h
            obtain ⟨h1, _⟩ := h
            subst h1
            have hf := appendServices_fields
              (parse_services ((pyGet row "services").getD "")) st0
            exact ImportInv_of_fields hf.2.1 hf.2.2.1 hf.2.2.2.1 hf.2.2.2.2 hInv
          · rw [Prod.mk.injEq] at h
            obtain ⟨h1, _⟩ := h
            subst h1
            have hf := appendServices_fields
              (parse_services ((pyGet row "services").getD "")) st0
            have hmid := ImportInv_of_fields hf.2.1 hf.2.2.1 hf.2.2.2.1 hf.2.2.2.2 hInv
            exact ImportInv_record rfl (by dsimp only [appendResult]; omega)
              ⟨Or.inl rfl, by simp⟩ hmid

/-- One loop iteration — validation failure, clean body, swallowed sentinel
or recorded unexpected error — preserves the import invariant. -/
theorem processRow_inv {geocode : String → Option (ℚ × ℚ)} {row_number : Nat}
    {raw_row : Row} {st : IState} (hInv : ImportInv st) :
    ImportInv (processRow geocode row_number raw_row st) := by
  simp only [processRow]
  split
  · exact ImportInv_record rfl rfl ⟨Or.inr (Or.inr rfl), by simp⟩ hInv
  · split
    · rename_i st1 hbody
      exact runRowBody_inv hInv hbody
    · rename_i st1 e hbody
      split
      · exact runRowBody_inv hInv hbody
      · exact ImportInv_record rfl rfl ⟨Or.inr (Or.inr rfl), by simp⟩
          (runRowBody_inv hInv hbody)

/-- The row loop preserves the import invariant. -/
theorem foldl_processRow_inv (geocode : String → Option (ℚ × ℚ))
    (headers : List String) :
    ∀ (l : List (Nat × List String)) (st : IState), ImportInv st →
      ImportInv (l.foldl
        (fun st p => processRow geocode (p.1 + 2) (mkRow headers p.2) st) st)
  | [], _, h => h
  | _ :: rest, _, h =>
    foldl_processRow_inv geocode headers rest _ (processRow_inv h)

/-- C10: every import that returns a report (no header-level failure) is
internally consistent: `created + updated + failed = total_rows`,
`total_rows` is the length of the per-row results list, every entry's
status is `created`, `updated` or `failed`, and an entry carries an error
message exactly when its status is `failed`. -/
theorem import_report_consistent {geocode : String → Option (ℚ × ℚ)}
    {input : List (List String)} {db0 : DB} {report : ImportReport} {db1 : DB}
    (h : process_csv_import geocode input db0 = .ok (report, db1)) :
    report.total_rows = report.results.length ∧
    report.created + report.updated + report.failed = report.total_rows ∧
    ∀ r ∈ report.results,
      (r.status = "created" ∨ r.status = "updated" ∨ r.status = "failed") ∧
      (r.error ≠ none ↔ r.status = "failed") := by
  simp only [process_csv_import] at h
  split at h
  · cases h
  · rename_i headerCells dataRows
    split at h
    · cases h
    · rw [Except.ok.injEq, Prod.mk.injEq] at h
      obtain ⟨hrep, _⟩ := h
      subst hrep
      have hInv := foldl_processRow_inv geocode (headerCells.map pyStrip)
        (dataRows.filter fun cs => cs ≠ []).enum
        ⟨db0.stores, db0.services, db0.services.map (fun s => (s.name, s)), [], 0, 0, 0⟩
        ⟨rfl, fun r hr => absurd hr (List.not_mem_nil r)⟩
      exact ⟨rfl, hInv.1, hInv.2⟩

/-- C10 (witness): one created row and one failed row give a consistent
`2 = 1 + 0 + 1` report. -/
theorem import_report_consistent_witness :
    process_csv_import (fun _ => none) c10Input ⟨[], []⟩ = .ok (c10Report, c10DB1) ∧
    (c10Report.total_rows = c10Report.results.length ∧
     c10Report.created + c10Report.updated + c10Report.failed = c10Report.total_rows ∧
     ∀ r ∈ c10Report.results,
       (r.status = "created" ∨ r.status = "updated" ∨ r.status = "failed") ∧
       (r.error ≠ none ↔ r.status = "failed")) :=
  ⟨by decide, @import_report_consistent (fun _ => none) c10Input ⟨[], []⟩ c10Report c10DB1 (by decide)⟩

/-- C5: a row that matches no existing record and whose optional columns
`store_type`, `status`, `address_country` and the seven weekday hours are
absent creates, when its body completes, exactly one new record carrying
the documented defaults: type `regular`, status `active`, country `"USA"`
and `"closed"` for every weekday. -/
theorem create_applies_defaults {geocode : String → Option (ℚ × ℚ)}
    {row_number : Nat} {row : Row} {store_id : String} {st0 st' : IState}
    (hex : findStore st0 store_id = none)
    (hty : rowLookup row "store_type" = none)
    (hst : rowLookup row "status" = none)
    (hco : rowLookup row "address_country" = none)
    (hmon : rowLookup row "hours_mon" = none)
    (htue : rowLookup row "hours_tue" = none)
    (hwed : rowLookup row "hours_wed" = none)
    (hthu : rowLookup row "hours_thu" = none)
    (hfri : rowLookup row "hours_fri" = none)
    (hsat : rowLookup row "hours_sat" = none)
    (hsun : rowLookup row "hours_sun" = none)
    (h : runRowBody geocode row_number row store_id st0 = (st', none)) :
    ∃ s : StoreRec, st'.stores = st0.stores ++ [s] ∧ s.store_id = store_id ∧
      s.store_type = .regular ∧ s.status = .active ∧
      s.address_country = some "USA" ∧
      s.hours_mon = some "closed" ∧ s.hours_tue = some "closed" ∧
      s.hours_wed = some "closed" ∧ s.hours_thu = some "closed" ∧
      s.hours_fri = some "closed" ∧ s.hours_sat = some "closed" ∧
      s.hours_sun = some "closed" := by
  have hta : storeTypeArg row = .ok .regular := by
    unfold storeTypeArg pyGetD
    rw [hty]
    decide
  have hsa : statusArg row = .ok .active := by
    unfold statusArg pyGetD
    rw [hst]
    decide
  have hcoD : pyGetD row "address_country" "USA" = some "USA" := by
    unfold pyGetD; rw [hco]
  have hmonD : pyGetD row "hours_mon" "closed" = some "closed" := by
    unfold pyGetD; rw [hmon]
  have htueD : pyGetD row "hours_tue" "closed" = some "closed" := by
    unfold pyGetD; rw [htue]
  have hwedD : pyGetD row "hours_wed" "closed" = some "closed" := by
    unfold pyGetD; rw [hwed]
  have hthuD : pyGetD row "hours_thu" "closed" = some "closed" := by
    unfold pyGetD; rw [hthu]
  have hfriD : pyGetD row "hours_fri" "closed" = some "closed" := by
    unfold pyGetD; rw [hfri]
  have hsatD : pyGetD row "hours_sat" "closed" = some "closed" := by
    unfold pyGetD; rw [hsat]
  have hsunD : pyGetD row "hours_sun" "closed" = some "closed" := by
    unfold pyGetD; rw [hsun]
  simp only [runRowBody, hex, hta, hsa, Option.isNone_none, Bool.and_true] at h
  split at h
  · rw [Prod.mk.injEq] at h
    exact absurd h.2 (by simp)
  · split at h
    · rw [Prod.mk.injEq] at h
      exact absurd h.2 (by simp)
    · rw [Prod.mk.injEq] at h
      obtain ⟨h1, _⟩ := h
      subst h1
      refine ⟨{ store_id := store_id,
                name := (pyGet row "name").getD "",
                store_type := StoreType.regular,
                status := StoreStatus.active,
                latitude := (resolveCoords geocode row).1,
                longitude := (resolveCoords geocode row).2,
                address_street := pyGet row "address_street",
                address_city := pyGet row "address_city",
                address_state := pyGet row "address_state",
                address_postal_code := pyGet row "address_postal_code",
                address_country := pyGetD row "address_country" "USA",
                phone := pyGet row "phone",
                hours_mon := pyGetD row "hours_mon" "closed",
                hours_tue := pyGetD row "hours_tue" "closed",
                hours_wed := pyGetD row "hours_wed" "closed",
                hours_thu := pyGetD row "hours_thu" "closed",
                hours_fri := pyGetD row "hours_fri" "closed",
                hours_sat := pyGetD row "hours_sat" "closed",
                hours_sun := pyGetD row "hours_sun" "closed",
                services :=
                  (appendServices (parse_services ((pyGet row "services").getD "")) st0).1 },
        ?_, rfl, rfl, rfl, hcoD, hmonD, htueD, hwedD, hthuD, hfriD, hsatD, hsunD⟩
      show (appendServices (parse_services ((pyGet row "services").getD "")) st0).2.1.stores
          ++ _ = _
      rw [(appendServices_fields (parse_services ((pyGet row "services").getD "")) st0).1]

/-- C5 (witness): a creation row with only identifier, name and literal
coordinates gets every documented default. -/
theorem create_applies_defaults_witness :
    runRowBody (fun _ => none) 2 c5Row "S1" c5St0 = (c5Out, none) ∧
    (∃ s : StoreRec, c5Out.stores = c5St0.stores ++ [s] ∧ s.store_id = "S1" ∧
      s.store_type = .regular ∧ s.status = .active ∧
      s.address_country = some "USA" ∧
      s.hours_mon = some "closed" ∧ s.hours_tue = some "closed" ∧
      s.hours_wed = some "closed" ∧ s.hours_thu = some "closed" ∧
      s.hours_fri = some "closed" ∧ s.hours_sat = some "closed" ∧
      s.hours_sun = some "closed") :=
  ⟨by decide, @create_applies_defaults (fun _ => none) 2 c5Row "S1" c5St0 c5Out
    rfl rfl rfl rfl rfl rfl rfl rfl rfl rfl rfl (by decide)⟩

/-- After validation, the status assignment of the update branch cannot
raise: it re-evaluates the expression the validator already accepted. -/
theorem updateAfterType_no_error {row : Row} {coords : Option ℚ × Option ℚ}
    {es : StoreRec}
    (h4 : ¬(truthy (pyGet row "status") = true ∧
      (StoreStatus.ofString (pyLower ((pyGet row "status").getD ""))).isNone = true)) :
    (updateFields.updateAfterType row coords es).2 = none := by
  unfold updateFields.updateAfterType
  dsimp only
  by_cases hs : truthy (pyGet row "status") = true
  · rw [if_pos hs]
    cases hopt : StoreStatus.ofString (pyLower ((pyGet row "status").getD "")) with
    | none => exact absurd ⟨hs, by rw [hopt]; rfl⟩ h4
    | some t =>
      dsimp only
      rw [hopt]
  · rw [if_neg hs]

/-- After validation, no assignment of the update branch raises: the
store-type and status cells were already checked with the same
expressions. -/
theorem updateFields_no_error {row : Row} {coords : Option ℚ × Option ℚ}
    {es : StoreRec} (hval : validate_store_row row = none) :
    (updateFields row coords es).2 = none := by
  unfold validate_store_row at hval
  split at hval
  · cases hval
  · split at hval
    · cases hval
    · split at hval
      · cases hval
      · split at hval
        · cases hval
        · rename_i h1 h2 h3 h4
          unfold updateFields
          dsimp only
          by_cases hty : truthy (pyGet row "store_type") = true
          · rw [if_pos hty]
            cases hopt : StoreType.ofString (pyLower ((pyGet row "store_type").getD "")) with
            | none => exact absurd ⟨hty, by rw [hopt]; rfl⟩ h3
            | some t =>
              dsimp only
              rw [hopt]
              exact updateAfterType_no_error h4
          · rw [if_neg hty]
            exact updateAfterType_no_error h4

/-- C1: for every import row that passes validation, if an exception other
than the coordinate-failure sentinel escapes the row body, then none of
that row's storage writes are visible in the state the loop continues
with — an enum `ValueError`/`AttributeError` is raised before any session
mutation, and a flush-raised `IntegrityError` arrives only after SQLAlchemy
has rolled the savepoint back and restored the snapshot — and the loop
records exactly one additional failed outcome carrying the error
description, leaving all previously recorded outcomes and counters intact.
Rows are processed sequentially against this state, so every other row's
outcome and writes are unaffected. -/
theorem import_failed_row_isolated {geocode : String → Option (ℚ × ℚ)}
    {row_number : Nat} {raw_row : Row} {st0 stB : IState} {e : RowExc}
    (hval : validate_store_row (stripRow raw_row) = none)
    (hbody : runRowBody geocode row_number (stripRow raw_row)
      ((pyGet (stripRow raw_row) "store_id").getD "") st0 = (stB, some e))
    (hmsg : e.msg ≠ "Row-level validation failed") :
    (stB.stores = st0.stores ∧ stB.services = st0.services ∧
     stB.results = st0.results ∧ stB.created = st0.created ∧
     stB.updated = st0.updated ∧ stB.failed = st0.failed) ∧
    processRow geocode row_number raw_row st0 =
      { stB with
        results := stB.results ++ [⟨row_number,
          (pyGet (stripRow raw_row) "store_id").getD "", "failed",
          some ("Unexpected error: " ++ e.msg)⟩],
        failed := stB.failed + 1 } := by
  have hproc : processRow geocode row_number raw_row st0 =
      { stB with
        results := stB.results ++ [⟨row_number,
          (pyGet (stripRow raw_row) "store_id").getD "", "failed",
          some ("Unexpected error: " ++ e.msg)⟩],
        failed := stB.failed + 1 } := by
    simp only [processRow, hval]
    rw [hbody]
    dsimp only
    rw [if_neg hmsg]
    rfl
  refine ⟨?_, hproc⟩
  simp only [runRowBody] at hbody
  split at hbody
  · -- coordinate-failure sentinel, excluded by the hypothesis
    rw [Prod.mk.injEq] at hbody
    obtain ⟨_, h2⟩ := hbody
    cases h2
    exact absurd rfl hmsg
  · split at hbody
    · -- update branch
      rename_i es hes
      split at hbody
      · -- an updateFields exception is impossible after validation
        rename_i e1 heq
        rw [updateFields_no_error hval] at heq
        cases heq
      · split at hbody
        · -- services column present: only the flush can raise, and it
          -- restores the snapshot
          rename_i hu hkey
          split at hbody
          · rename_i e1 heq
            rw [Prod.mk.injEq] at hbody
            obtain ⟨h1, _⟩ := hbody
            subst h1
            have hf := appendServices_fields
              (parse_services ((pyGet (stripRow raw_row) "services").getD ""))
              (writeStore (writeStore st0
                  (updateFields (stripRow raw_row)
                    (resolveCoords geocode (stripRow raw_row)) es).1)
                { (updateFields (stripRow raw_row)
                    (resolveCoords geocode (stripRow raw_row)) es).1 with
                  services := [] })
            exact ⟨rfl, rfl, hf.2.1, hf.2.2.1, hf.2.2.2.1, hf.2.2.2.2⟩
          · rw [Prod.mk.injEq] at hbody
            obtain ⟨_, h2⟩ := hbody
            cases h2
        · rw [Prod.mk.injEq] at hbody
          obtain ⟨_, h2⟩ := hbody
          cases h2
    · -- create branch
      split at hbody
      · rw [Prod.mk.injEq] at hbody
        obtain ⟨h1, _⟩ := hbody
        subst h1
        exact ⟨rfl, rfl, rfl, rfl, rfl, rfl⟩
      · split at hbody
        · rw [Prod.mk.injEq] at hbody
          obtain ⟨h1, _⟩ := hbody
          subst h1
          exact ⟨rfl, rfl, rfl, rfl, rfl, rfl⟩
        · split at hbody
          · rename_i e1 heq
            rw [Prod.mk.injEq] at hbody
            obtain ⟨h1, _⟩ := hbody
            subst h1
            have hf := appendServices_fields
              (parse_services ((pyGet (stripRow raw_row) "services").getD "")) st0
            exact ⟨rfl, rfl, hf.2.1, hf.2.2.1, hf.2.2.2.1, hf.2.2.2.2⟩
          · rw [Prod.mk.injEq] at hbody
            obtain ⟨_, h2⟩ := hbody
            cases h2

/-- C1 (witness): the colliding-service update — `db.flush()` raises
`IntegrityError` after the rename and the `services.clear()`, the savepoint
rollback restores both, the row is recorded failed with the error
description, and the committed import leaves the database exactly as it
was. -/
theorem import_failed_row_isolated_witness :
    validate_store_row (stripRow c1Row) = none ∧
    runRowBody (fun _ => none) 2 (stripRow c1Row)
      ((pyGet (stripRow c1Row) "store_id").getD "") c1St0 = (c1St0, some c1Exc) ∧
    c1Exc.msg ≠ "Row-level validation failed" ∧
    ((c1St0.stores = c1St0.stores ∧ c1St0.services = c1St0.services ∧
      c1St0.results = c1St0.results ∧ c1St0.created = c1St0.created ∧
      c1St0.updated = c1St0.updated ∧ c1St0.failed = c1St0.failed) ∧
     processRow (fun _ => none) 2 c1Row c1St0 =
       { c1St0 with
         results := c1St0.results ++ [⟨2,
           (pyGet (stripRow c1Row) "store_id").getD "", "failed",
           some ("Unexpected error: " ++ c1Exc.msg)⟩],
         failed := c1St0.failed + 1 }) ∧
    process_csv_import (fun _ => none) c1Input c1DB =
      .ok ({ total_rows := 1, created := 0, updated := 0, failed := 1,
             results := [⟨2, "B1", "failed",
               some "Unexpected error: IntegrityError: duplicate key value services.service_id=SVC_PHARMACY"⟩] },
           c1DB) :=
  ⟨by decide, by decide, by decide,
   @import_failed_row_isolated (fun _ => none) 2 c1Row c1St0 c1St0 c1Exc
     (by decide) (by decide) (by decide),
   by decide⟩
